import Mathlib

/-!
Verification of the Printing_agent repository's image/receipt pipeline.

The development shallowly embeds the pure computational core of the two
platform services (`printer_service_windows.py` and `printer_service_mac.py`):
the ESC/POS raster codec, the threshold monochromizer, the resize arithmetic,
the raw-path job assembly, the rendered-path canvas sizing, the data-URL
stripping, the receipt-text resolution, and the temp-file lifecycle of the
raster ticket path.  Bytes are modelled as natural numbers below 256, Python
strings as lists of characters, the binary64 arithmetic of the resize step
as exact mantissa-exponent pairs with correct round-to-nearest-even, and the
external collaborators (PIL decoding, base64, the OS print spooler) as
explicit parameters or outcome values, exactly where the source hands
control to them.
-/

namespace PrintAgent

/-- Python's `int.to_bytes(2, "little")`, for values below 2^16 (the source
never emits larger values through this call: Python would raise
`OverflowError`).  Returns the two little-endian bytes. -/
def to_bytes_2_le (n : Nat) : List Nat :=
  [n % 256, n / 256 % 256]

/-- A packed 1-bit bitmap as produced by Pillow's `im.tobytes()` in mode "1":
row-major, MSB-first, each row padded to `widthBytes = (width + 7) / 8`
bytes, so the payload has `widthBytes * height` bytes.  The payload here is
the raw packed bytes before the codec's polarity inversion. -/
structure Bitmap1 where
  width : Nat
  height : Nat
  payload : List Nat

/-- `width_bytes = (im.width + 7) // 8` from `convert_image_to_escpos`
(printer_service_windows.py line 200). -/
def width_bytes (w : Nat) : Nat :=
  (w + 7) / 8

/-- The per-byte polarity flip of step 8 of `convert_image_to_escpos`
(lines 210-212): every payload byte is XORed with 0xFF before emission. -/
def invert_bytes (payload : List Nat) : List Nat :=
  payload.map (fun b => b ^^^ 0xFF)

/-- The `GS v 0` raster block built in steps 7-8 of `convert_image_to_escpos`
(printer_service_windows.py lines 199-214): the fixed opcode
`1D 76 30 00`, then `width_bytes` and `height` as 2-byte little-endian
integers, then the bit-inverted payload. -/
def escpos_encode (bmp : Bitmap1) : List Nat :=
  [0x1d, 0x76, 0x30, 0x00]
    ++ to_bytes_2_le (width_bytes bmp.width)
    ++ to_bytes_2_le bmp.height
    ++ invert_bytes bmp.payload

/-- The threshold map of step 6 of `convert_image_to_escpos`
(printer_service_windows.py line 196): `lambda p: 255 if p > threshold
else 0`, applied pointwise to grayscale samples; 255 means a white sample,
0 a black one.  The source fixes `threshold = 190`. -/
def threshold_point (threshold p : Nat) : Nat :=
  if p > threshold then 255 else 0

/-- Number of binary digits of a natural number (0 for 0), computed with
structural fuel recursion so the kernel can evaluate it. -/
def bitlen_fuel : Nat → Nat → Nat
  | 0, _ => 0
  | f + 1, n => if n = 0 then 0 else bitlen_fuel f (n / 2) + 1

/-- Bit length of a natural number: `bitlen n = k` iff `2^(k-1) ≤ n < 2^k`
for positive `n`. -/
def bitlen (n : Nat) : Nat := bitlen_fuel n n

/-- A non-negative binary64 value represented exactly as
`mantissa * 2 ^ exponent`.  The dimension arithmetic of the source stays
far inside the normal range of binary64 (no overflow, no subnormals), so
this pair represents the float exactly. -/
abbrev Float64 := Nat × Int

/-- Python's `max_width / float(w)`: the correctly rounded (round to
nearest, ties to even, 53-bit significand) binary64 quotient of two
naturals, both exactly representable — the source's widths are far below
2^53.  The quotient is scaled so that it has 53 or 54 significant bits;
rounding then inspects the division remainder (and, in the 54-bit case,
the dropped low bit with the remainder as sticky bit). -/
def fl_div (a b : Nat) : Float64 :=
  if a = 0 then (0, 0)
  else if b = 0 then (0, 0)
  else
    let s : Int := 53 - ((bitlen a : Int) - (bitlen b : Int))
    let N := if 0 ≤ s then a * 2 ^ s.toNat else a
    let D := if 0 ≤ s then b else b * 2 ^ (-s).toNat
    let q := N / D
    let r := N % D
    if q < 2 ^ 53 then
      let m := if 2 * r < D then q
               else if D < 2 * r then q + 1
               else if q % 2 = 0 then q else q + 1
      (m, -s)
    else
      let m0 := q / 2
      let m := if q % 2 = 0 then m0
               else if r ≠ 0 then m0 + 1
               else if m0 % 2 = 0 then m0 else m0 + 1
      (m, 1 - s)

/-- Python's `h * ratio` for a natural `h` (exactly representable, heights
are far below 2^53) and a binary64 `ratio`: the exact integer product of
`h` with the mantissa, rounded back to 53 significant bits (round to
nearest, ties to even). -/
def fl_mul_nat (h : Nat) (f : Float64) : Float64 :=
  let p := h * f.1
  if p = 0 then (0, 0)
  else
    let t := bitlen p
    if t ≤ 53 then (p, f.2)
    else
      let k := t - 53
      let m0 := p / 2 ^ k
      let r := p % 2 ^ k
      let half := 2 ^ (k - 1)
      let m := if r < half then m0
               else if half < r then m0 + 1
               else if m0 % 2 = 0 then m0 else m0 + 1
      (m, f.2 + (k : Int))

/-- Python's `int(...)` on a non-negative binary64 value: truncation
toward zero, i.e. the floor of `mantissa * 2 ^ exponent`. -/
def float_trunc (f : Float64) : Nat :=
  if 0 ≤ f.2 then f.1 * 2 ^ f.2.toNat else f.1 / 2 ^ (-f.2).toNat

/-- Step 3 of `convert_image_to_escpos` (printer_service_windows.py lines
170-179), and equally lines 172-176 of `render_receipt_to_image` in
printer_service_mac.py: when the decoded width exceeds `max_width`, the
new size is `(max_width, int(height * (max_width / width)))`, with
`ratio = max_width / width` and `height * ratio` both computed in binary64
(`fl_div`, `fl_mul_nat`) and `int` truncating; otherwise the image is
untouched. -/
def resize_dims (max_width w h : Nat) : Nat × Nat :=
  if max_width < w then
    (max_width, float_trunc (fl_mul_nat h (fl_div max_width w)))
  else (w, h)

/-- The resize the specification describes, with `round` in place of the
source's truncation: `newHeight = round(height * maxWidth / width)`.  Kept
separate so it can be compared with `resize_dims`. -/
def resize_dims_spec_round (max_width w h : Nat) : Nat × Nat :=
  if max_width < w then
    (max_width, (round ((h : ℚ) * (max_width : ℚ) / (w : ℚ))).toNat)
  else (w, h)

/-! ## Raw-path job assembly (printer_service_windows.py, /print/raw) -/

/-- Outcome of the external decode stage of `convert_image_to_escpos`
(base64 decode, `Image.open`, resize, threshold — lines 161-197): either
some exception was raised, or a packed 1-bit bitmap was produced. -/
inductive DecodeResult where
  | failure (msg : String)
  | ok (bmp : Bitmap1)

/-- `convert_image_to_escpos` seen from its callers: any exception inside
the `try` block is caught and mapped to the empty byte string (lines
216-218); a successful decode yields the `GS v 0` raster block. -/
def convert_image_to_escpos : DecodeResult → List Nat
  | .failure _ => []
  | .ok bmp => escpos_encode bmp

/-- The drawer-kick pulse `ESC p 0 25 250` (printer_service_windows.py
line 243). -/
def drawer_cmd : List Nat := [0x1b, 0x70, 0x00, 0x19, 0xfa]

/-- `ESC a 1`, set centre alignment (line 266). -/
def center_align : List Nat := [0x1b, 0x61, 0x01]

/-- `ESC a 0`, reset to left alignment (line 270). -/
def left_align : List Nat := [0x1b, 0x61, 0x00]

/-- Python strings are modelled as lists of characters, so that every
operation the source performs on them stays computable by the kernel. -/
abbrev PyStr := List Char

/-- Python truthiness of an optional string field read with
`req_data.get(...)`: `None` and the empty string are falsy. -/
def str_truthy : Option PyStr → Bool
  | none => false
  | some s => !s.isEmpty

/-- The JSON fields of a `/print/raw` request that the Windows handler
reads (printer_service_windows.py lines 231-233): `data` (base64 receipt
text), `logo`, and `printLogo` (defaulting to false). -/
structure WinRequest where
  data : Option PyStr
  logo : Option PyStr
  printLogo : Bool

/-- The Windows `/print/raw` handler `print_raw_bytes` (lines 221-292),
modelled up to its external collaborators: `printer` is what
`load_selected()` returned, `textDecode` the outcome of
`base64.b64decode(b64_text)` (an exception there is caught by the outer
handler and mapped to a 500 response), and `logoDecode` the outcome of the
decode stage inside `convert_image_to_escpos`.  The result is the HTTP
error, or the ordered list of buffers passed to `WritePrinter`: the drawer
kick first, then — only when `printLogo` is truthy, the `logo` field is
truthy and the conversion is non-empty — centre alignment, logo block and
left alignment, then the receipt bytes. -/
def print_raw_windows (printer : Option PyStr) (req : WinRequest)
    (textDecode : Except String (List Nat)) (logoDecode : DecodeResult) :
    Except (Nat × String) (List (List Nat)) :=
  match printer with
  | none => .error (404, "No printer selected")
  | some _ =>
    if str_truthy req.data = false then .error (400, "No data provided")
    else
      match textDecode with
      | .error e => .error (500, e)
      | .ok receipt_bytes =>
        .ok ([drawer_cmd]
          ++ (if req.printLogo && str_truthy req.logo then
                (let lb := convert_image_to_escpos logoDecode
                 if lb.isEmpty then [] else [center_align, lb, left_align])
              else [])
          ++ [receipt_bytes])

/-! ## Rendered-path canvas sizing (printer_service_mac.py) -/

/-- Python's `s.split("\n")`: splits at every newline, keeping empty
pieces, and yields the one-element list `[""]` on the empty string. -/
def split_lines : PyStr → List PyStr
  | [] => [[]]
  | c :: cs =>
    let r := split_lines cs
    if c = '\n' then [] :: r
    else
      match r with
      | [] => [[c]]
      | l :: ls => (c :: l) :: ls

/-- The canvas-height computation of `render_receipt_to_image`
(printer_service_mac.py lines 181-200).  `logo_img` carries the height of
the decoded (and possibly resized) logo when one survived decoding, and
`none` when there was no logo or its decode failed.  The text is split on
newlines; the constants are the source's `line_height = 18`,
`padding_top = padding_bottom = 20` and `spacing_logo_text = 20`. -/
def render_canvas_height (logo_img : Option Nat) (plain_text : PyStr) : Nat :=
  let lines := split_lines plain_text
  let line_height := 18
  let padding_top := 20
  let padding_bottom := 20
  let spacing_logo_text := 20
  let logo_height := match logo_img with | some h => h | none => 0
  let text_height := line_height * max lines.length 1
  padding_top + logo_height
    + (match logo_img with | some _ => spacing_logo_text | none => 0)
    + text_height + padding_bottom

/-! ## Data-URL stripping -/

/-- Python's `s.split(",", 1)` restricted to what the source needs: the
part before the first comma and, when a comma exists, the part after it.
Strings are modelled as lists of characters. -/
def split_first_comma : List Char → List Char × Option (List Char)
  | [] => ([], none)
  | c :: cs =>
    if c = ',' then ([], some cs)
    else
      let r := split_first_comma cs
      (c :: r.1, r.2)

/-- The header-stripping step shared by `convert_image_to_escpos`
(printer_service_windows.py lines 163-164) and `render_receipt_to_image`
(printer_service_mac.py lines 166-167): `if "," in s: s = s.split(",", 1)[1]`. -/
def strip_data_url (s : List Char) : List Char :=
  if ',' ∈ s then
    match (split_first_comma s).2 with
    | some rest => rest
    | none => s
  else s

/-! ## Receipt-text resolution (printer_service_mac.py, /print/raw) -/

/-- Python's `s.strip()`: drops whitespace characters from both ends. -/
def py_strip (s : PyStr) : PyStr :=
  ((s.dropWhile Char.isWhitespace).reverse.dropWhile Char.isWhitespace).reverse

/-- The text-resolution block of the macOS `/print/raw` handler
(printer_service_mac.py lines 410-442), parametrised by the external
decoder `dec` standing for `base64.b64decode(...)` followed by
`.decode("utf-8", errors="ignore")` — a `.error` outcome stands for the
exception that the handler catches, after which `plain_text` is set to the
empty string.  The flow of the source: when `plainTextReceipt` is falsy it
falls back to `data`; a falsy `data` is rejected with 400 "No data
provided"; a resolved text that strips to nothing is rejected with 400
"Empty receipt text". -/
def resolve_text (dec : PyStr → Except String PyStr)
    (plainText dataF : Option PyStr) : Except (Nat × String) PyStr :=
  let resolved : Except (Nat × String) PyStr :=
    if str_truthy plainText then .ok (plainText.getD [])
    else if str_truthy dataF = false then .error (400, "No data provided")
    else .ok (match dec (dataF.getD []) with | .ok s => s | .error _ => [])
  match resolved with
  | .error e => .error e
  | .ok pt =>
    if py_strip pt = [] then .error (400, "Empty receipt text") else .ok pt

/-- The resolution the claim describes, word for word: `plainTextReceipt`
is preferred whenever it is present (even empty), and `data` is decoded
only when `plainTextReceipt` is absent; a request supplying neither field
is rejected, and a resolved text that is empty or whitespace-only is
rejected.  Kept separate so it can be compared with `resolve_text`. -/
def resolve_text_claim (dec : PyStr → Except String PyStr)
    (plainText dataF : Option PyStr) : Except (Nat × String) PyStr :=
  let resolved : Except (Nat × String) PyStr :=
    match plainText with
    | some s => .ok s
    | none =>
      match dataF with
      | none => .error (400, "No data provided")
      | some d => .ok (match dec d with | .ok s => s | .error _ => [])
  match resolved with
  | .error e => .error e
  | .ok pt =>
    if py_strip pt = [] then .error (400, "Empty receipt text") else .ok pt

/-! ## Temp-file lifecycle of the raster ticket path (printer_service_mac.py) -/

/-- File-system and transport events performed by the raster ticket path,
with temp-file paths abstracted as numbers. -/
inductive FsEvent where
  | create_temp (path : Nat)
  | close_handle (path : Nat)
  | save_png (path : Nat)
  | submit_lp (path : Nat)
  | remove_file (path : Nat)
deriving DecidableEq

/-- The effect trace of `render_receipt_to_image` (printer_service_mac.py
lines 226-232) on the transient PNG at path `p`: the named temporary file
is created with `delete=False`, its write handle is closed, and the canvas
is saved to the path (Pillow opening and closing its own handle inside
`save`). -/
def render_receipt_events (p : Nat) : List FsEvent :=
  [.create_temp p, .close_handle p, .save_png p]

/-- `print_raster_ticket` (printer_service_mac.py lines 235-281): render
the receipt to the transient PNG at path `p`, then hand the path to `lp`;
`lp_ok` is whether `lp` returned 0.  The `finally` block only logs — the
commented-out `os.remove` is never executed — so the trace is the same on
success and on failure, and a failing `lp` raises `RuntimeError` after the
trace is complete. -/
def print_raster_ticket_run (p : Nat) (lp_ok : Bool) :
    List FsEvent × Except String Unit :=
  (render_receipt_events p ++ [.submit_lp p],
   if lp_ok then .ok () else .error "lp image failed")

/-! ## Theorems -/

/-- C1: for every 1-bit bitmap reaching the codec (its payload packed to
`width_bytes * height` bytes, with height and width-byte count below 2^16
as required by the two-byte fields), the encoded raster block starts with
the fixed opcode `1D 76 30 00`, carries `width_bytes` and then the height
as 2-byte little-endian integers at offsets 4 and 6, is followed by the
(bit-inverted) payload, and has total length `8 + width_bytes * height`;
moreover `width_bytes` is the ceiling of width / 8, in particular at the
widths 1, 7, 8, 9, 15, 16, 384 and 576. -/
theorem c1_escpos_frame (bmp : Bitmap1)
    (hlen : bmp.payload.length = width_bytes bmp.width * bmp.height)
    (hh : bmp.height < 65536) (hw : width_bytes bmp.width < 65536) :
    (escpos_encode bmp).take 4 = [0x1d, 0x76, 0x30, 0x00] ∧
    (escpos_encode bmp).getD 4 0 + 256 * (escpos_encode bmp).getD 5 0 =
      width_bytes bmp.width ∧
    (escpos_encode bmp).getD 6 0 + 256 * (escpos_encode bmp).getD 7 0 =
      bmp.height ∧
    (escpos_encode bmp).drop 8 = invert_bytes bmp.payload ∧
    (escpos_encode bmp).length = 8 + width_bytes bmp.width * bmp.height ∧
    (∀ w : Nat, w ≤ 8 * width_bytes w ∧ 8 * width_bytes w < w + 8) ∧
    width_bytes 1 = 1 ∧ width_bytes 7 = 1 ∧ width_bytes 8 = 1 ∧
    width_bytes 9 = 2 ∧ width_bytes 15 = 2 ∧ width_bytes 16 = 2 ∧
    width_bytes 384 = 48 ∧ width_bytes 576 = 72 := by
  refine ⟨rfl, ?_, ?_, rfl, ?_, ?_, by decide, by decide, by decide, by decide,
    by decide, by decide, by decide, by decide⟩
  · show width_bytes bmp.width % 256 + 256 * (width_bytes bmp.width / 256 % 256) =
      width_bytes bmp.width
    omega
  · show bmp.height % 256 + 256 * (bmp.height / 256 % 256) = bmp.height
    omega
  · simp [escpos_encode, to_bytes_2_le, invert_bytes, hlen]
    omega
  · intro w
    unfold width_bytes
    omega

/-- Witness for C1 at a concrete 9-by-2 bitmap whose payload has
`width_bytes 9 * 2 = 4` bytes. -/
theorem c1_escpos_frame_inst :
    (escpos_encode ⟨9, 2, [1, 2, 3, 4]⟩).length = 8 + width_bytes 9 * 2 :=
  (c1_escpos_frame ⟨9, 2, [1, 2, 3, 4]⟩ (by decide) (by decide)
    (by decide)).2.2.2.2.1

/-- C2: re-inverting every payload byte of the encoded raster block (the
bytes after the 8-byte header) reproduces the original packed bitmap
bytes exactly — the codec's per-byte XOR with 0xFF is an involution. -/
theorem c2_polarity_roundtrip (bmp : Bitmap1) :
    invert_bytes ((escpos_encode bmp).drop 8) = bmp.payload := by
  have h : (escpos_encode bmp).drop 8 = invert_bytes bmp.payload := rfl
  rw [h]
  unfold invert_bytes
  rw [List.map_map]
  have hx : ∀ b : Nat, ((b ^^^ 0xFF) ^^^ 0xFF) = b := fun b => by
    rw [Nat.xor_assoc, Nat.xor_self, Nat.xor_zero]
  calc bmp.payload.map ((fun b => b ^^^ 0xFF) ∘ fun b => b ^^^ 0xFF)
      = bmp.payload.map id := List.map_congr_left (fun b _ => hx b)
    _ = bmp.payload := List.map_id bmp.payload

/-- C3: under the default threshold 190 the monochromizer maps a grayscale
sample to white (255) exactly when it exceeds the threshold and to black
(0) otherwise; in particular 190 itself goes to black and 191 to white. -/
theorem c3_threshold_boundary (p : Nat) (hp : p ≤ 255) :
    (threshold_point 190 p = 255 ↔ 190 < p) ∧
    (threshold_point 190 p = 0 ↔ p ≤ 190) ∧
    threshold_point 190 190 = 0 ∧ threshold_point 190 191 = 255 := by
  unfold threshold_point
  refine ⟨?_, ?_, by norm_num, by norm_num⟩ <;> split <;> omega

/-- Witness for C3 at the two boundary samples. -/
theorem c3_threshold_boundary_inst :
    threshold_point 190 190 = 0 ∧ threshold_point 190 191 = 255 :=
  ⟨(c3_threshold_boundary 190 (by decide)).2.2.1,
   (c3_threshold_boundary 191 (by decide)).2.2.2⟩

/-- C4 counterexample: at a 512-wide, 2-tall image with `max_width = 384`
the source truncates `2 * (384 / 512) = 1.5` to height 1, while the
claimed `round` gives height 2 (here `384 / 512` and the product are
dyadic, so Python's float arithmetic is exact and agrees with ℚ). -/
theorem c4_round_counterexample :
    resize_dims 384 512 2 = (384, 1) ∧
    resize_dims_spec_round 384 512 2 = (384, 2) ∧
    ((384, 1) : Nat × Nat) ≠ (384, 2) := by
  refine ⟨by decide, ?_, by decide⟩
  unfold resize_dims_spec_round
  norm_num [round_eq]
  rfl

/-- C4 amended: when the width exceeds `max_width` the resampled width is
`max_width` and the height is `int(height * (max_width / width))`
evaluated in binary64 — a truncation, not a rounding — which can even
fall below the exact `⌊height * max_width / width⌋` because of the two
float roundings: at 18816-by-49 with `max_width = 384` the code yields
height 0 while the exact floor is 1.  An image no wider than `max_width`
keeps its dimensions, and an 800-by-400 input with `max_width = 384`
still yields height 192. -/
theorem c4_resize_truncates (max_width w h : Nat) :
    (max_width < w → (resize_dims max_width w h).1 = max_width) ∧
    (w ≤ max_width → resize_dims max_width w h = (w, h)) ∧
    resize_dims 384 800 400 = (384, 192) ∧
    resize_dims 384 18816 49 = (384, 0) ∧
    49 * 384 / 18816 = 1 := by
  refine ⟨?_, ?_, by decide, by decide, by decide⟩
  · intro hw
    unfold resize_dims
    rw [if_pos hw]
  · intro hw
    unfold resize_dims
    rw [if_neg (by omega)]

/-- Witness for C4 at the 800-by-400 input: the downscale branch applies
and fixes the new width at 384. -/
theorem c4_resize_truncates_inst :
    (resize_dims 384 800 400).1 = 384 :=
  (c4_resize_truncates 384 800 400).1 (by decide)

/-- C5: a failing logo decode is caught inside `convert_image_to_escpos`
and yields the empty byte string, so the assembled raw-path job is exactly
the drawer kick followed by the receipt bytes — no alignment codes, no
logo bytes — and the handler still answers success. -/
theorem c5_logo_failure_recovered (printer : PyStr) (req : WinRequest)
    (tb : List Nat) (msg : String) (hd : str_truthy req.data = true) :
    convert_image_to_escpos (.failure msg) = [] ∧
    print_raw_windows (some printer) req (.ok tb) (.failure msg) =
      .ok [drawer_cmd, tb] := by
  refine ⟨rfl, ?_⟩
  simp [print_raw_windows, hd, convert_image_to_escpos]

/-- Witness for C5: a request with text, a malformed logo and
`printLogo = true` still assembles drawer kick plus text. -/
theorem c5_logo_failure_recovered_inst :
    print_raw_windows (some ['E']) ⟨some ['Z', 'g'], some ['!'], true⟩
      (.ok [84, 111]) (.failure "cannot identify image file") =
      .ok [drawer_cmd, [84, 111]] :=
  (c5_logo_failure_recovered ['E'] ⟨some ['Z', 'g'], some ['!'], true⟩
    [84, 111] "cannot identify image file" (by decide)).2

/-- C6: the raw-path handler writes, in order, the 5-byte drawer kick
first (unconditionally, before the logo is even converted), then — exactly
when `printLogo` is true, the logo field is a non-empty string and its
conversion is non-empty — the centre-alignment code, the logo block and
the left-alignment code, then the receipt bytes exactly as supplied. -/
theorem c6_raw_job_order (printer : PyStr) (req : WinRequest)
    (tb : List Nat) (ld : DecodeResult) (hd : str_truthy req.data = true) :
    ∃ writes : List (List Nat),
      print_raw_windows (some printer) req (.ok tb) ld = .ok writes ∧
      writes.head? = some drawer_cmd ∧
      writes.flatten =
        drawer_cmd ++
          (if req.printLogo && str_truthy req.logo
              && !(convert_image_to_escpos ld).isEmpty then
            center_align ++ convert_image_to_escpos ld ++ left_align
          else []) ++ tb := by
  refine ⟨[drawer_cmd]
    ++ (if req.printLogo && str_truthy req.logo then
          (let lb := convert_image_to_escpos ld
           if lb.isEmpty then [] else [center_align, lb, left_align])
        else [])
    ++ [tb], ?_, rfl, ?_⟩
  · simp [print_raw_windows, hd]
  · cases h1 : req.printLogo && str_truthy req.logo <;> simp [h1]
    split <;> simp

/-- Witness for C6 at a concrete request with a successfully decoded
1-by-1 logo. -/
theorem c6_raw_job_order_inst :
    ∃ writes : List (List Nat),
      print_raw_windows (some ['E']) ⟨some ['Z', 'g'], some ['x'], true⟩
        (.ok [10, 20]) (.ok ⟨1, 1, [0]⟩) = .ok writes ∧
      writes.head? = some drawer_cmd ∧
      writes.flatten =
        drawer_cmd ++
          (if true && str_truthy (some ['x'])
              && !(convert_image_to_escpos (.ok ⟨1, 1, [0]⟩)).isEmpty then
            center_align ++ convert_image_to_escpos (.ok ⟨1, 1, [0]⟩)
              ++ left_align
          else []) ++ [10, 20] :=
  c6_raw_job_order ['E'] ⟨some ['Z', 'g'], some ['x'], true⟩ [10, 20]
    (.ok ⟨1, 1, [0]⟩) (by decide)

/-- C7: the rendered-path canvas height is top padding (20) plus the logo
height (0 without a logo) plus the logo-text spacing (20, only with a
logo) plus 18 per text line (at least one line) plus bottom padding (20);
three lines without a logo give 94, adding a logo of height 60 gives 174,
and the empty receipt still reserves one line (58). -/
theorem c7_canvas_height :
    (∀ (plain_text : PyStr) (logo : Option Nat),
        render_canvas_height logo plain_text =
          20 + logo.getD 0 + (if logo.isSome then 20 else 0)
            + 18 * max (split_lines plain_text).length 1 + 20) ∧
    render_canvas_height none ['a', '\n', 'b', '\n', 'c'] = 94 ∧
    render_canvas_height (some 60) ['a', '\n', 'b', '\n', 'c'] = 174 ∧
    render_canvas_height none [] = 58 := by
  refine ⟨?_, by decide, by decide, by decide⟩
  intro plain_text logo
  cases logo <;> simp [render_canvas_height]

/-- Auxiliary: `split_first_comma` on a string with a first comma returns
the part before it and the part after it. -/
theorem split_first_comma_append (a b : PyStr) (ha : ',' ∉ a) :
    split_first_comma (a ++ ',' :: b) = (a, some b) := by
  induction a with
  | nil => simp [split_first_comma]
  | cons c cs ih =>
    have hc : ¬(c = ',') := fun h => ha (by simp [h])
    have hcs : ',' ∉ cs := fun h => ha (List.mem_cons_of_mem _ h)
    simp [split_first_comma, hc, ih hcs]

/-- C8: when the logo string contains a comma, exactly the substring after
the first comma is kept as the base64 body (everything before it is
discarded unparsed); a comma-free string is used whole. -/
theorem c8_data_url_after_comma :
    (∀ a b : PyStr, ',' ∉ a → strip_data_url (a ++ ',' :: b) = b) ∧
    (∀ s : PyStr, ',' ∉ s → strip_data_url s = s) := by
  constructor
  · intro a b ha
    unfold strip_data_url
    rw [if_pos (by simp : ',' ∈ a ++ ',' :: b)]
    rw [split_first_comma_append a b ha]
  · intro s hs
    unfold strip_data_url
    rw [if_neg hs]

/-- Witness for C8 on a data-URL-style string and on a bare string. -/
theorem c8_data_url_after_comma_inst :
    strip_data_url ['x', ',', 'y'] = ['y'] ∧
    strip_data_url ['z'] = ['z'] :=
  ⟨c8_data_url_after_comma.1 ['x'] ['y'] (by decide),
   c8_data_url_after_comma.2 ['z'] (by decide)⟩

/-- C9 counterexample: with `plainTextReceipt` supplied but empty and a
decodable `data` field, the macOS handler falls back to `data` and
succeeds, whereas the claimed resolution — `data` used only when
`plainTextReceipt` is absent — would reject the request as empty. -/
theorem c9_absent_vs_falsy_counterexample :
    resolve_text (fun _ => Except.ok ['h', 'i']) (some []) (some ['d']) =
      .ok ['h', 'i'] ∧
    resolve_text_claim (fun _ => Except.ok ['h', 'i']) (some []) (some ['d']) =
      .error (400, "Empty receipt text") :=
  ⟨rfl, rfl⟩

/-- C9 amended: the macOS handler resolves the receipt text by preferring
a truthy (non-empty) `plainTextReceipt`; when that is absent or empty it
decodes the `data` field (a decode exception becomes the empty text);
a request with both fields falsy is rejected with "No data provided"
before any rendering, and a resolved text that strips to nothing is
rejected with "Empty receipt text". -/
theorem c9_text_resolution (dec : PyStr → Except String PyStr)
    (pt df : Option PyStr) :
    (str_truthy pt = false → str_truthy df = false →
      resolve_text dec pt df = .error (400, "No data provided")) ∧
    (str_truthy pt = true →
      resolve_text dec pt df =
        if py_strip (pt.getD []) = [] then .error (400, "Empty receipt text")
        else .ok (pt.getD [])) ∧
    (str_truthy pt = false → str_truthy df = true →
      resolve_text dec pt df =
        (let s := match dec (df.getD []) with | .ok s => s | .error _ => []
         if py_strip s = [] then .error (400, "Empty receipt text")
         else .ok s)) := by
  refine ⟨?_, ?_, ?_⟩
  · intro h1 h2
    simp [resolve_text, h1, h2]
  · intro h1
    simp [resolve_text, h1]
  · intro h1 h2
    simp [resolve_text, h1, h2]

/-- Witness for C9: the three resolution paths at concrete requests —
neither field, a non-empty `plainTextReceipt`, and a `data` fallback. -/
theorem c9_text_resolution_inst :
    resolve_text (fun _ => Except.ok ['h', 'i']) none none =
      .error (400, "No data provided") ∧
    resolve_text (fun _ => Except.ok ['h', 'i']) (some ['T']) none =
      (if py_strip ((some ['T']).getD []) = [] then
        .error (400, "Empty receipt text")
      else .ok ((some ['T']).getD [])) ∧
    resolve_text (fun _ => Except.ok ['h', 'i']) none (some ['d']) =
      (let s := match (fun _ => Except.ok ['h', 'i'] :
          PyStr → Except String PyStr) ((some ['d']).getD []) with
        | .ok s => s | .error _ => []
       if py_strip s = [] then .error (400, "Empty receipt text")
       else .ok s) :=
  ⟨(c9_text_resolution _ none none).1 rfl rfl,
   (c9_text_resolution _ (some ['T']) none).2.1 rfl,
   (c9_text_resolution _ none (some ['d'])).2.2 rfl rfl⟩

/-- C10: the raster ticket path creates the transient PNG, closes its
write handle, saves the canvas, and only then hands the path to `lp`;
no removal event ever occurs — whether `lp` succeeds or fails — so the
file is retained on disk, and a failing `lp` surfaces as an error only
after the trace is complete. -/
theorem c10_png_retained (p : Nat) (lp_ok : Bool) :
    (print_raster_ticket_run p lp_ok).1 =
      [.create_temp p, .close_handle p, .save_png p, .submit_lp p] ∧
    (∀ q, FsEvent.remove_file q ∉ (print_raster_ticket_run p lp_ok).1) ∧
    (print_raster_ticket_run p lp_ok).2 =
      (if lp_ok then .ok () else .error "lp image failed") := by
  refine ⟨rfl, ?_, rfl⟩
  intro q hq
  simp [print_raster_ticket_run, render_receipt_events] at hq

end PrintAgent
